import Mathlib

/-!
Shallow embedding of the IoT dashboard `app.py` (Streamlit front end over a
Firebase realtime store).  Python dynamic values are modelled by `PyVal`,
fallible remote-store operations by `Except`, and the Streamlit page logic by
pure functions over explicit state.
-/

/-- Python runtime values as they occur in this program: `None`, booleans,
integers and strings (the cases the store contract in the spec allows). -/
inductive PyVal where
  | null
  | bool (b : Bool)
  | int (n : Int)
  | str (s : String)
deriving DecidableEq, Repr

/-- Python truthiness, as applied by `bool(state)` in
`get_current_control_state`: `None` and the falsy primitives map to `False`. -/
def pyTruthy : PyVal → Bool
  | .null => false
  | .bool b => b
  | .int n => n ≠ 0
  | .str s => s ≠ ""

/-- ASCII whitespace stripped by Python `int` before parsing. -/
def isSpaceChar (c : Char) : Bool :=
  c = ' ' || c = '\t' || c = '\n' || c = '\r'

/-- Decimal digit test. -/
def isDigitChar (c : Char) : Bool := 48 ≤ c.toNat && c.toNat ≤ 57

/-- Value of a nonempty decimal digit string. -/
def digitsToNat (cs : List Char) : Nat :=
  cs.foldl (fun acc c => acc * 10 + (c.toNat - 48)) 0

/-- Python `int(s)` on the characters of `s`: optional surrounding
whitespace, an optional sign, then at least one decimal digit; anything
else raises `ValueError` (here `none`). -/
def pyIntOfChars (cs : List Char) : Option Int :=
  let t := ((cs.dropWhile isSpaceChar).reverse.dropWhile isSpaceChar).reverse
  match t with
  | [] => none
  | c :: rest =>
    if c = '-' then
      if rest ≠ [] ∧ rest.all isDigitChar then some (-(digitsToNat rest : Int)) else none
    else if c = '+' then
      if rest ≠ [] ∧ rest.all isDigitChar then some ((digitsToNat rest : Int)) else none
    else if (c :: rest).all isDigitChar then some ((digitsToNat (c :: rest) : Int)) else none

/-- Python `int(s)` restricted to the string case guarded by
`isinstance(timestamp_ms, str)`. -/
def pyIntOfString (s : String) : Option Int := pyIntOfChars s.data

/-- The `timestamp` field of a raw log entry: either already an integer or a
textual representation (the two shapes the data model admits). -/
inductive TsVal where
  | int (n : Int)
  | str (s : String)
deriving DecidableEq, Repr

/-- The nested `sensor_logs` group; each field is read with `.get`, hence
optional. -/
structure SensorGroup where
  temp : Option PyVal
  humidity : Option PyVal
  light_lvl : Option PyVal
  motion_state : Option PyVal
deriving DecidableEq, Repr

/-- The nested `actuator_logs` group; each field is read with `.get`, hence
optional. -/
structure ActuatorGroup where
  relay_state : Option PyVal
  light_state : Option PyVal
deriving DecidableEq, Repr

/-- One raw value under `data_logs/<key>`: a possibly absent `timestamp` and
the two possibly absent nested groups. -/
structure LogRec where
  timestamp : Option TsVal
  sensor_logs : Option SensorGroup
  actuator_logs : Option ActuatorGroup
deriving DecidableEq, Repr

/-- One flattened row of the history table, as built inside
`get_data_history`. -/
structure Row where
  timestamp_ms : Int
  temp : Option PyVal
  humidity : Option PyVal
  light_lvl : Option PyVal
  motion_detected : Option PyVal
  relay_state : Option PyVal
  light_state : Option PyVal
deriving DecidableEq, Repr

/-- Timestamp normalisation of `get_data_history` lines 80-86: missing field
defaults to `0`; a string is parsed with `int`, and a `ValueError` is mapped
to `0`; an integer passes through. -/
def normalizeTs : Option TsVal → Int
  | none => 0
  | some (.int n) => n
  | some (.str s) => (pyIntOfString s).getD 0

/-- The guard of line 79: the entry value is truthy (not `None`) and both
nested groups are present. -/
def hasBothGroups : Option LogRec → Bool
  | none => false
  | some r => r.sensor_logs.isSome && r.actuator_logs.isSome

/-- The record dictionary built on lines 88-96, using empty groups as the
(unreachable under `hasBothGroups`) defaults. -/
def rowOf (r : LogRec) : Row :=
  let sg := r.sensor_logs.getD ⟨none, none, none, none⟩
  let ag := r.actuator_logs.getD ⟨none, none⟩
  { timestamp_ms := normalizeTs r.timestamp
    temp := sg.temp
    humidity := sg.humidity
    light_lvl := sg.light_lvl
    motion_detected := sg.motion_state
    relay_state := ag.relay_state
    light_state := ag.light_state }

/-- The body of the row-building loop for one fetched entry value
(lines 78-97): the guard of line 79 either admits the flattened row or
skips the entry silently. -/
def rowOfEntry : Option LogRec → Option Row
  | none => none
  | some r =>
    if r.sensor_logs.isSome && r.actuator_logs.isSome then some (rowOf r) else none

/-- The row-building loop of lines 77-97 over the fetched entry values:
entries failing the guard are skipped silently, each passing entry
contributes exactly one row. -/
def buildRows (logs : List (Option LogRec)) : List Row :=
  logs.filterMap rowOfEntry

/-- Ordering on rows by the derived timestamp, the sort key produced by
`df.set_index` on the converted timestamp column. -/
def rowLE (a b : Row) : Prop := a.timestamp_ms ≤ b.timestamp_ms

instance : DecidableRel rowLE := fun a b => inferInstanceAs (Decidable (a.timestamp_ms ≤ b.timestamp_ms))

instance : IsTotal Row rowLE := ⟨fun a b => Int.le_total a.timestamp_ms b.timestamp_ms⟩

instance : IsTrans Row rowLE := ⟨fun _ _ _ h h2 => Int.le_trans h h2⟩

instance : IsRefl Row rowLE := ⟨fun a => Int.le_refl a.timestamp_ms⟩

/-- The ascending sort by derived timestamp of line 107 (`df.sort_index()`). -/
def sortAsc (rows : List Row) : List Row := rows.insertionSort rowLE

/-- Descending sort by derived timestamp. Pandas realises
`sort_index(ascending=False)` by reversing the ascending argsort order
(`nargsort` computes the ascending indexer and reverses it), so the
descending presentation is the reverse of the ascending sort of the input. -/
def sortDesc (rows : List Row) : List Row := (sortAsc rows).reverse

/-- Pure core of `get_data_history` (lines 67-113): the fetch result is either
a transport failure (caught on lines 111-113, yielding the empty frame) or the
list of fetched entry values; an empty or absent mapping also yields the empty
frame (line 74), otherwise rows are built and sorted ascending by derived
timestamp. -/
def get_data_history (fetch : Except String (List (Option LogRec))) : List Row :=
  match fetch with
  | .error _ => []
  | .ok logs =>
    if logs.isEmpty then []
    else sortAsc (buildRows logs)

/-- The table presentation of line 164: the already fetched and ascending
sorted frame, re-sorted descending (`sort_index(ascending=False)`). -/
def latest_15_df_display (df_history : List Row) : List Row := sortDesc df_history

/-! ### Server-side ordered fetch (lines 67-75)

Modelled from the spec: the remote store itself is an external collaborator
(not in `src/`); `order_by_key().limit_to_last(n)` is its documented
server-side query returning the last `n` entries in ascending key order.
Keys are modelled as naturals, following the spec's glossary assumption that
push keys are insertion-ordered and sortable. -/

/-- Ordering of store entries by key, the order `order_by_key` queries use. -/
def keyLE (a b : Nat × Option LogRec) : Prop := a.1 ≤ b.1

instance : DecidableRel keyLE := fun a b => inferInstanceAs (Decidable (a.1 ≤ b.1))

instance : IsTotal (Nat × Option LogRec) keyLE := ⟨fun a b => Nat.le_total a.1 b.1⟩

instance : IsTrans (Nat × Option LogRec) keyLE := ⟨fun _ _ _ h h2 => Nat.le_trans h h2⟩

/-- Modelled from the spec: the server-side query of line 72,
`order_by_key().limit_to_last(n)` — sort the stored entries ascending by key
and keep only the final `n` of them. -/
def order_by_key_limit_to_last (store : List (Nat × Option LogRec)) (n : Nat) :
    List (Nat × Option LogRec) :=
  let sorted := store.insertionSort keyLE
  sorted.drop (sorted.length - n)

/-! ### Store gateway and control page -/

/-- The remote store as seen through the gateway: a value per path, plus
which paths currently suffer a transport failure on read or on write
(transient faults are environmental, so they are part of the modelled
state). -/
structure RemoteStore where
  val : String → Option PyVal
  readFails : String → Bool
  writeFails : String → Bool

/-- The error token carried by a failed transport operation. -/
def transportErr : String := "transport failure"

/-- Gateway read: `ref.get()` — raises only on transport failure, returns
`None` (here `none`) for an absent path. -/
def storeRead (s : RemoteStore) (path : String) : Except String (Option PyVal) :=
  if s.readFails path then Except.error transportErr else Except.ok (s.val path)

/-- Gateway write: `ref.set(v)` — updates the path unless the transport
fails, in which case the store is unchanged. -/
def storeSet (s : RemoteStore) (path : String) (v : PyVal) : RemoteStore :=
  { s with val := fun p => if p = path then some v else s.val p }

/-- Truthiness of a fetched value: an absent path reads as `None`, so
`bool(state)` sees `False`. -/
def pyBoolOpt : Option PyVal → Bool
  | none => false
  | some v => pyTruthy v

/-- The path `controls/{device}_override` addressed by
`control_ref.child(f'{device}_override')`. -/
def controlPath (device : String) : String := "controls/" ++ device ++ "_override"

/-- The `current_status` value: a dictionary with optional `temp` and
`humidity` fields. -/
structure StatusRec where
  temp : Option PyVal
  humidity : Option PyVal
deriving DecidableEq, Repr

/-- The placeholder the control page shows when a status field is absent. -/
def naVal : PyVal := PyVal.str "N/A"

/-- Body of `read_current_status` (lines 176-181).  There is no handler
around the `.get()` call, so a transport failure propagates as an
exception; an absent or falsy status yields the placeholder pair. -/
def read_current_status (fetch : Except String (Option StatusRec)) :
    Except String (PyVal × PyVal) :=
  match fetch with
  | .error e => .error e
  | .ok none => .ok (naVal, naVal)
  | .ok (some st) => .ok (st.temp.getD naVal, st.humidity.getD naVal)

/-- The TTL, in seconds, of every `st.cache_data` annotation in the file. -/
def ttlSeconds : Nat := 60

/-- Control page state: the remote store plus the `st.cache_data` cache of
`get_current_control_state`, mapping a device to a cached boolean and the
time it was stored. -/
structure ControlPageState where
  store : RemoteStore
  cache : String → Option (Bool × Nat)

/-- The uncached computation inside `get_current_control_state`
(lines 195-201): read `controls/{device}_override`, coerce with `bool`, and
map any exception to `False`. -/
def get_current_control_state_body (store : RemoteStore) (device : String) : Bool :=
  match storeRead store (controlPath device) with
  | .ok st => pyBoolOpt st
  | .error _ => false

/-- Run the body and record its result in the `st.cache_data` cache. -/
def gccsRecompute (s : ControlPageState) (now : Nat) (device : String) :
    Bool × ControlPageState :=
  let v := get_current_control_state_body s.store device
  (v, { s with cache := fun d => if d = device then some (v, now) else s.cache d })

/-- The function `get_current_control_state` as deployed: wrapped in
`st.cache_data(ttl=60)`, so a cached entry younger than the TTL is served
without touching the store. -/
def get_current_control_state (s : ControlPageState) (now : Nat) (device : String) :
    Bool × ControlPageState :=
  match s.cache device with
  | some (v, t0) => if now - t0 < ttlSeconds then (v, s) else gccsRecompute s now device
  | none => gccsRecompute s now device

/-- The message `set_override` shows when the write raises. -/
def sendFailMsg : String := "Failed to send command"

/-- The function `set_override` (lines 185-191): best-effort write of the
boolean to `controls/{device}_override`; a failure is caught and reported,
never raised.  The `st.cache_data` cache is not touched. -/
def set_override (s : ControlPageState) (device : String) (value : Bool) :
    ControlPageState × Option String :=
  if s.store.writeFails (controlPath device) then (s, some sendFailMsg)
  else ({ s with store := storeSet s.store (controlPath device) (.bool value) }, none)

/-- Streamlit-side effects a toggle interaction can issue. -/
inductive Effect where
  | write (path : String) (value : PyVal)
  | rerun
deriving DecidableEq, Repr

/-- The per-toggle conditional of lines 225-227 and 241-243: when the widget
value differs from the last-known flag, call `set_override` (a write to
`controls/{device}_override`) and then `st.rerun()`; otherwise do nothing. -/
def toggle_step (device : String) (currentState toggleVal : Bool) : List Effect :=
  if toggleVal != currentState then
    [Effect.write (controlPath device) (PyVal.bool toggleVal), Effect.rerun]
  else []

/-- Replay an effect against the store (successful-transport semantics). -/
def applyEffect (store : RemoteStore) : Effect → RemoteStore
  | .write p v => storeSet store p v
  | .rerun => store

/-- Replay a list of effects against the store. -/
def applyEffects (store : RemoteStore) (effs : List Effect) : RemoteStore :=
  effs.foldl applyEffect store

/-- Whether an effect list contains a store write. -/
def hasWrite (effs : List Effect) : Bool :=
  effs.any fun e => match e with | .write _ _ => true | .rerun => false

/-! ### Initialization (lines 17-53) -/

/-- Streamlit secrets: a mapping from secret names to string values. -/
def Secrets : Type := List (String × String)

/-- Membership / lookup in `st.secrets`. -/
def secretsGet (secrets : Secrets) (k : String) : Option String :=
  (secrets.find? (fun p => p.1 == k)).map (fun p => p.2)

/-- The `required_keys` list of lines 23-28. -/
def required_keys : List String :=
  ["firebase_type", "firebase_project_id", "firebase_private_key",
   "firebase_client_email", "firebase_token_uri", "firebase_auth_uri",
   "firebase_auth_provider_x509_cert_url", "firebase_client_x509_cert_url",
   "firebase_client_id"]

/-- The service-account dictionary assembled on lines 31-41 and handed to
`credentials.Certificate`. -/
structure KeyDict where
  type : String
  project_id : String
  private_key : String
  client_email : String
  token_uri : String
  auth_uri : String
  auth_provider_x509_cert_url : String
  client_x509_cert_url : String
  client_id : String
deriving DecidableEq, Repr

/-- The dictionary literal of lines 31-41, field by field from the nine
individually named secrets (all present when this code runs). -/
def buildKeyDict (secrets : Secrets) : KeyDict :=
  { type := (secretsGet secrets ("firebase_type")).getD ""
    project_id := (secretsGet secrets ("firebase_project_id")).getD ""
    private_key := (secretsGet secrets ("firebase_private_key")).getD ""
    client_email := (secretsGet secrets ("firebase_client_email")).getD ""
    token_uri := (secretsGet secrets ("firebase_token_uri")).getD ""
    auth_uri := (secretsGet secrets ("firebase_auth_uri")).getD ""
    auth_provider_x509_cert_url := (secretsGet secrets ("firebase_auth_provider_x509_cert_url")).getD ""
    client_x509_cert_url := (secretsGet secrets ("firebase_client_x509_cert_url")).getD ""
    client_id := (secretsGet secrets ("firebase_client_id")).getD "" }

/-- Outcome of `init_firebase`: either rendering halts with a visible error
(`st.error` followed by `st.stop`), or the page proceeds with a database
reference — carrying the freshly built credential when the app was
initialized on this run. -/
inductive InitOutcome where
  | halted (msg : String)
  | connected (newCred : Option KeyDict)
deriving DecidableEq, Repr

/-- The error message of line 44. -/
def missingSecretsMsg : String :=
  "Missing one or more required Firebase secrets. Please check the Streamlit Secrets dashboard."

/-- The error message prefix of line 50. -/
def initFailedMsg : String := "Failed to initialize Firebase: "

/-- The function `init_firebase` (lines 17-53).  `alreadyInit` models
whether `get_app()` succeeds; `certify` models `credentials.Certificate`
together with `initialize_app`, which can raise on a malformed credential.
If any of the nine required secrets is absent the page halts with an error;
a certification exception is caught on line 49 and also halts the page. -/
def init_firebase (alreadyInit : Bool) (secrets : Secrets)
    (certify : KeyDict → Except String KeyDict) : InitOutcome :=
  if alreadyInit then .connected none
  else if required_keys.all (fun k => (secretsGet secrets k).isSome) then
    match certify (buildKeyDict secrets) with
    | .ok cred => .connected (some cred)
    | .error e => .halted (initFailedMsg ++ e)
  else .halted missingSecretsMsg

/-! ### Theorems -/

/-- Default record used only to spell out the filtered map (never selected
when the guard holds). -/
def emptyLogRec : LogRec := ⟨none, none, none⟩

/-- Pointwise form of the loop body: an entry contributes its full
flattened row exactly when both nested groups are present. -/
theorem rowOfEntry_eq (l : Option LogRec) :
    rowOfEntry l
      = if hasBothGroups l then some (rowOf (l.getD emptyLogRec)) else none := by
  cases l with
  | none => rfl
  | some r =>
    obtain ⟨ts, sl, al⟩ := r
    cases sl <;> cases al <;> rfl

/-- C3: the derived row set contains exactly one row per raw record having
both the `sensor_logs` and `actuator_logs` nested groups (a full row, built
by `rowOf`), silently excludes every record missing either group, and hence
never exceeds the raw record count. -/
theorem C3_row_filter_exact (logs : List (Option LogRec)) :
    buildRows logs
        = (logs.filter hasBothGroups).map (fun l => rowOf (l.getD emptyLogRec)) ∧
    (buildRows logs).length = (logs.filter hasBothGroups).length ∧
    (buildRows logs).length ≤ logs.length := by
  have hmain : buildRows logs
      = (logs.filter hasBothGroups).map (fun l => rowOf (l.getD emptyLogRec)) := by
    induction logs with
    | nil => rfl
    | cons hd tl ih =>
      by_cases hb : hasBothGroups hd = true
      · have hsome : rowOfEntry hd = some (rowOf (hd.getD emptyLogRec)) := by
          rw [rowOfEntry_eq, if_pos hb]
        show List.filterMap rowOfEntry (hd :: tl) = _
        rw [List.filterMap_cons_some hsome, List.filter_cons]
        simp only [hb, if_true, List.map_cons]
        exact congrArg _ ih
      · have hnone : rowOfEntry hd = none := by
          rw [rowOfEntry_eq, if_neg hb]
        show List.filterMap rowOfEntry (hd :: tl) = _
        rw [List.filterMap_cons_none hnone, List.filter_cons]
        simp only [hb, if_false, Bool.false_eq_true]
        exact ih
  refine ⟨hmain, ?_, ?_⟩
  · rw [hmain, List.length_map]
  · rw [hmain, List.length_map]
    exact List.length_filter_le _ _

/-- The concrete raw record of the spec's end-to-end test: string timestamp
with both nested groups present. -/
def strTsRec : LogRec :=
  { timestamp := some (TsVal.str "1700000000")
    sensor_logs := some ⟨some (PyVal.int 25), some (PyVal.int 60),
                         some (PyVal.int 100), some (PyVal.bool false)⟩
    actuator_logs := some ⟨some (PyVal.bool false), some (PyVal.bool true)⟩ }

/-- C4: a string timestamp is parsed to its integer value, an unparsable
string defaults to epoch `0` without dropping the row, and the concrete
record with string timestamp "1700000000" yields exactly one row whose
numeric timestamp is `1700000000`. -/
theorem C4_string_timestamp_parsed :
    (∀ s n, pyIntOfString s = some n → normalizeTs (some (TsVal.str s)) = n) ∧
    (∀ s, pyIntOfString s = none → normalizeTs (some (TsVal.str s)) = 0) ∧
    buildRows [some strTsRec] = [rowOf strTsRec] ∧
    (rowOf strTsRec).timestamp_ms = 1700000000 := by
  refine ⟨?_, ?_, by decide, by decide⟩
  · intro s n h
    simp [normalizeTs, h]
  · intro s h
    simp [normalizeTs, h]

theorem C4_string_timestamp_parsed_witness :
    normalizeTs (some (TsVal.str "1700000000")) = 1700000000 ∧
    normalizeTs (some (TsVal.str "not a number")) = 0 :=
  ⟨C4_string_timestamp_parsed.1 "1700000000" 1700000000 (by decide),
   C4_string_timestamp_parsed.2.1 "not a number" (by decide)⟩

/-- A store of twenty `data_logs` entries with insertion-ordered keys
`1..20` (the spec's `k1..k20`). -/
def store20 : List (Nat × Option LogRec) :=
  (List.range 20).map (fun i => (i + 1, (none : Option LogRec)))

/-- C6: the fetch is a server-side last-n-by-key query: on a store with at
least `n` entries and distinct keys it returns exactly `n` entries, all
from the store, and every returned entry's key exceeds every excluded
entry's key; on the 20-entry store with keys `1..20` and limit `15` it
returns exactly the entries keyed `6..20`. -/
theorem C6_limit_to_last_largest_keys :
    (∀ (store : List (Nat × Option LogRec)) (n : Nat),
        (store.map Prod.fst).Nodup → n ≤ store.length →
        (order_by_key_limit_to_last store n).length = n ∧
        (∀ p ∈ order_by_key_limit_to_last store n, p ∈ store) ∧
        (∀ p ∈ order_by_key_limit_to_last store n, ∀ q ∈ store,
            q ∉ order_by_key_limit_to_last store n → q.1 < p.1)) ∧
    order_by_key_limit_to_last store20 15
      = (List.range 15).map (fun i => (i + 6, (none : Option LogRec))) := by
  constructor
  · intro store n hnodup hn
    have hperm : List.Perm (store.insertionSort keyLE) store :=
      List.perm_insertionSort keyLE store
    have hlen : (store.insertionSort keyLE).length = store.length := hperm.length_eq
    have hsorted : List.Sorted keyLE (store.insertionSort keyLE) :=
      List.sorted_insertionSort keyLE store
    have hres : order_by_key_limit_to_last store n
        = (store.insertionSort keyLE).drop ((store.insertionSort keyLE).length - n) := rfl
    have hsplit : (store.insertionSort keyLE).take ((store.insertionSort keyLE).length - n)
          ++ (store.insertionSort keyLE).drop ((store.insertionSort keyLE).length - n)
        = store.insertionSort keyLE := List.take_append_drop _ _
    refine ⟨?_, ?_, ?_⟩
    · rw [hres, List.length_drop, hlen, Nat.sub_sub_self hn]
    · intro p hp
      rw [hres] at hp
      exact hperm.mem_iff.mp (List.mem_of_mem_drop hp)
    · intro p hp q hq hqnot
      rw [hres] at hp hqnot
      have hqs : q ∈ store.insertionSort keyLE := hperm.mem_iff.mpr hq
      have hqtake : q ∈ (store.insertionSort keyLE).take
          ((store.insertionSort keyLE).length - n) := by
        rcases List.mem_append.mp (by rw [hsplit]; exact hqs) with h | h
        · exact h
        · exact absurd h hqnot
      have hpair : ∀ a ∈ (store.insertionSort keyLE).take
            ((store.insertionSort keyLE).length - n),
          ∀ b ∈ (store.insertionSort keyLE).drop
            ((store.insertionSort keyLE).length - n), keyLE a b := by
        have hps : List.Pairwise keyLE ((store.insertionSort keyLE).take
              ((store.insertionSort keyLE).length - n)
            ++ (store.insertionSort keyLE).drop
              ((store.insertionSort keyLE).length - n)) := by
          rw [hsplit]; exact hsorted
        exact (List.pairwise_append.mp hps).2.2
      have hle : q.1 ≤ p.1 := hpair q hqtake p hp
      have hne : q.1 ≠ p.1 := by
        have hnds : ((store.insertionSort keyLE).map Prod.fst).Nodup :=
          ((hperm.map Prod.fst).nodup_iff).mpr hnodup
        have hnds2 : (((store.insertionSort keyLE).take
              ((store.insertionSort keyLE).length - n)).map Prod.fst
            ++ ((store.insertionSort keyLE).drop
              ((store.insertionSort keyLE).length - n)).map Prod.fst).Nodup := by
          rw [← List.map_append, hsplit]; exact hnds
        have hdisj := (List.nodup_append.mp hnds2).2.2
        intro he
        exact hdisj (List.mem_map_of_mem Prod.fst hqtake)
          (by rw [he]; exact List.mem_map_of_mem Prod.fst hp)
      exact lt_of_le_of_ne hle hne
  · decide

theorem C6_limit_to_last_largest_keys_witness :
    (store20.map Prod.fst).Nodup ∧ 15 ≤ store20.length ∧
    ((order_by_key_limit_to_last store20 15).length = 15 ∧
     (∀ p ∈ order_by_key_limit_to_last store20 15, p ∈ store20) ∧
     (∀ p ∈ order_by_key_limit_to_last store20 15, ∀ q ∈ store20,
        q ∉ order_by_key_limit_to_last store20 15 → q.1 < p.1)) :=
  ⟨by decide, by decide, C6_limit_to_last_largest_keys.1 store20 15 (by decide) (by decide)⟩

/-- The light device name. -/
def lightDev : String := "light"

/-- A secrets configuration carrying the service account as one single
JSON blob instead of the nine named fields. -/
def blobOnlySecrets : Secrets :=
  [("firebase_service_account_json", "service account JSON blob")]

/-- A secrets configuration supplying all nine required named fields. -/
def fullSecrets : Secrets := required_keys.map (fun k => (k, "value-" ++ k))

/-- C2 counterexample: `init_firebase` has no code path consuming a single
JSON-blob secret — a configuration supplying the whole service account as
one blob (and hence none of the nine named fields) is rejected with the
missing-secrets error rather than producing an authenticated session, so
the two input forms are not both accepted. -/
theorem C2_counterexample_blob_rejected :
    init_firebase false blobOnlySecrets Except.ok = InitOutcome.halted missingSecretsMsg := by
  decide

/-- C2 amended: `init_firebase` accepts only the nine individually named
secret fields: when all nine are present it builds the service-account
credential from exactly those fields and connects with it (certification
permitting); any configuration missing one of the nine named fields —
including one supplying a single JSON-blob secret instead — halts with the
missing-secrets error. -/
theorem C2_nine_field_credentials (secrets : Secrets)
    (certify : KeyDict → Except String KeyDict) (cred : KeyDict)
    (hall : ∀ k ∈ required_keys, (secretsGet secrets k).isSome)
    (hc : certify (buildKeyDict secrets) = Except.ok cred) :
    init_firebase false secrets certify = InitOutcome.connected (some cred) ∧
    ∀ s2 : Secrets, (∃ k ∈ required_keys, secretsGet s2 k = none) →
      init_firebase false s2 certify = InitOutcome.halted missingSecretsMsg := by
  constructor
  · have hb : required_keys.all (fun k => (secretsGet secrets k).isSome) = true := by
      rw [List.all_eq_true]
      exact fun k hk => hall k hk
    simp [init_firebase, hb, hc]
  · rintro s2 ⟨k, hk, hnone⟩
    have hb : required_keys.all (fun k => (secretsGet s2 k).isSome) = false := by
      rw [List.all_eq_false]
      exact ⟨k, hk, by simp [hnone]⟩
    simp [init_firebase, hb]

theorem C2_nine_field_credentials_witness :
    init_firebase false fullSecrets Except.ok
      = InitOutcome.connected (some (buildKeyDict fullSecrets)) ∧
    init_firebase false blobOnlySecrets Except.ok = InitOutcome.halted missingSecretsMsg := by
  have h := C2_nine_field_credentials fullSecrets Except.ok (buildKeyDict fullSecrets)
    (by decide) rfl
  exact ⟨h.1, h.2 blobOnlySecrets ⟨"firebase_type", by decide, by decide⟩⟩

/-- C8: on a run where the app is not yet initialized, a missing required
secret halts rendering with the missing-secrets error, and a failure while
building the credential is caught and also halts rendering with a visible
error; the halted outcome is terminal — no view code after initialization
runs and nothing retries. -/
theorem C8_fatal_config_error (secrets : Secrets)
    (certify : KeyDict → Except String KeyDict) :
    ((∃ k ∈ required_keys, secretsGet secrets k = none) →
        init_firebase false secrets certify = InitOutcome.halted missingSecretsMsg) ∧
    (∀ e, (∀ k ∈ required_keys, (secretsGet secrets k).isSome) →
        certify (buildKeyDict secrets) = Except.error e →
        init_firebase false secrets certify = InitOutcome.halted (initFailedMsg ++ e)) := by
  constructor
  · rintro ⟨k, hk, hnone⟩
    have hb : required_keys.all (fun k => (secretsGet secrets k).isSome) = false := by
      rw [List.all_eq_false]
      exact ⟨k, hk, by simp [hnone]⟩
    simp [init_firebase, hb]
  · intro e hall hc
    have hb : required_keys.all (fun k => (secretsGet secrets k).isSome) = true := by
      rw [List.all_eq_true]
      exact fun k hk => hall k hk
    simp [init_firebase, hb, hc]

theorem C8_fatal_config_error_witness :
    init_firebase false ([] : Secrets) Except.ok = InitOutcome.halted missingSecretsMsg :=
  (C8_fatal_config_error [] Except.ok).1 ⟨"firebase_type", by decide, rfl⟩

/-- C9: for each toggle, a store write is issued if and only if the widget
value differs from the last-known flag value; when they differ the write of
the new boolean to `controls/{device}_override` is followed by a rerun and
lands in the store, and when they agree no effect is issued and the store
is untouched. -/
theorem C9_write_iff_changed (store : RemoteStore) (device : String) (cur tog : Bool) :
    (hasWrite (toggle_step device cur tog) = true ↔ tog ≠ cur) ∧
    (tog = cur → toggle_step device cur tog = [] ∧
        applyEffects store (toggle_step device cur tog) = store) ∧
    (tog ≠ cur → toggle_step device cur tog
          = [Effect.write (controlPath device) (PyVal.bool tog), Effect.rerun] ∧
        (applyEffects store (toggle_step device cur tog)).val (controlPath device)
          = some (PyVal.bool tog)) := by
  cases tog <;> cases cur <;>
    simp [toggle_step, hasWrite, applyEffects, applyEffect, storeSet]

/-- C10: `get_current_control_state` is total with a boolean result: on a
cold cache it returns the uncached computation, which maps a transport
failure to `False` and otherwise coerces the fetched value with Python
truthiness — in particular an absent flag (a `None` read) seeds the toggle
to `False`. -/
theorem C10_control_state_total (s : ControlPageState) (now : Nat) (device : String)
    (hcold : s.cache device = none) :
    (get_current_control_state s now device).1
        = get_current_control_state_body s.store device ∧
    (s.store.readFails (controlPath device) = true →
        get_current_control_state_body s.store device = false) ∧
    (s.store.readFails (controlPath device) = false →
        get_current_control_state_body s.store device
          = pyBoolOpt (s.store.val (controlPath device))) ∧
    pyBoolOpt none = false := by
  refine ⟨?_, ?_, ?_, rfl⟩
  · simp [get_current_control_state, hcold, gccsRecompute]
  · intro hf
    simp [get_current_control_state_body, storeRead, hf]
  · intro hf
    simp [get_current_control_state_body, storeRead, hf]

/-- A remote store whose light override flag is absent, with healthy
transport. -/
def absentFlagState : ControlPageState :=
  { store := { val := fun _ => none, readFails := fun _ => false, writeFails := fun _ => false }
    cache := fun _ => none }

theorem C10_control_state_total_witness :
    (get_current_control_state absentFlagState 0 lightDev).1
        = get_current_control_state_body absentFlagState.store lightDev ∧
    (absentFlagState.store.readFails (controlPath lightDev) = true →
        get_current_control_state_body absentFlagState.store lightDev = false) ∧
    (absentFlagState.store.readFails (controlPath lightDev) = false →
        get_current_control_state_body absentFlagState.store lightDev
          = pyBoolOpt (absentFlagState.store.val (controlPath lightDev))) ∧
    pyBoolOpt none = false :=
  C10_control_state_total absentFlagState 0 lightDev rfl

/-- C7 counterexample: `read_current_status` (lines 176-181) has no
exception handler, so a transient read failure there propagates as an
exception instead of being caught and surfaced as a non-blocking message
with the placeholder pair. -/
theorem C7_counterexample_status_read_propagates :
    read_current_status (Except.error transportErr) = Except.error transportErr ∧
    read_current_status (Except.error transportErr) ≠ Except.ok (naVal, naVal) :=
  ⟨rfl, fun h => nomatch h⟩

/-- C7 amended: transient store failures are caught and defaulted in
`get_data_history` (empty frame), `get_current_control_state` (`False`) and
`set_override` (message shown, store untouched, nothing propagates), but
`read_current_status` has no handler: it returns the placeholder pair only
for an absent status value, and a transient read failure there propagates
as an exception. -/
theorem C7_defaults_on_failure :
    (∀ e, get_data_history (Except.error e) = []) ∧
    (∀ (s : ControlPageState) (now : Nat) (device : String),
        s.cache device = none → s.store.readFails (controlPath device) = true →
        (get_current_control_state s now device).1 = false) ∧
    (∀ (s : ControlPageState) (device : String) (v : Bool),
        s.store.writeFails (controlPath device) = true →
        set_override s device v = (s, some sendFailMsg)) ∧
    (read_current_status (Except.ok none) = Except.ok (naVal, naVal)) ∧
    (∀ e, read_current_status (Except.error e) = Except.error e) := by
  refine ⟨fun e => rfl, ?_, ?_, rfl, fun e => rfl⟩
  · intro s now device hc hf
    simp [get_current_control_state, hc, gccsRecompute, get_current_control_state_body,
      storeRead, hf]
  · intro s device v hf
    simp [set_override, hf]

/-- A control page state whose transport fails on every path. -/
def failingState : ControlPageState :=
  { store := { val := fun _ => none, readFails := fun _ => true, writeFails := fun _ => true }
    cache := fun _ => none }

theorem C7_defaults_on_failure_witness :
    get_data_history (Except.error transportErr) = [] ∧
    (get_current_control_state failingState 0 lightDev).1 = false ∧
    set_override failingState lightDev true = (failingState, some sendFailMsg) ∧
    read_current_status (Except.error transportErr) = Except.error transportErr :=
  ⟨C7_defaults_on_failure.1 transportErr,
   C7_defaults_on_failure.2.1 failingState 0 lightDev rfl rfl,
   C7_defaults_on_failure.2.2.1 failingState lightDev true rfl,
   C7_defaults_on_failure.2.2.2.2 transportErr⟩

/-- The initial control page state of the C1 scenario: the light override
flag is stored as `False`, transport is healthy, the cache is cold. -/
def c1State0 : ControlPageState :=
  { store := { val := fun p => if p = controlPath lightDev then some (PyVal.bool false) else none
               readFails := fun _ => false
               writeFails := fun _ => false }
    cache := fun _ => none }

/-- First read of the flag (seeds the toggle and warms the cache). -/
def c1Read1 : Bool × ControlPageState := get_current_control_state c1State0 0 lightDev

/-- The state right after the view writes `True` via `set_override`. -/
def c1AfterWrite : ControlPageState := (set_override c1Read1.2 lightDev true).1

/-- Re-read of the flag moments later (five seconds, well inside the TTL). -/
def c1Read2 : Bool × ControlPageState := get_current_control_state c1AfterWrite 5 lightDev

/-- C1 fails on the code: `get_current_control_state` is wrapped in
`st.cache_data(ttl=60)` and `set_override` does not invalidate that cache,
so after the first read returns `False` and the view writes `True`, the
store holds `True` yet the immediate re-read is served from the cache and
still returns `False` — not the newly written value. -/
theorem C1_cached_read_after_write_stale :
    c1Read1.1 = false ∧
    (set_override c1Read1.2 lightDev true).2 = none ∧
    c1AfterWrite.store.val (controlPath lightDev) = some (PyVal.bool true) ∧
    c1Read2.1 = false := by
  refine ⟨by decide, by decide, by decide, by decide⟩

/-- C5: the table presentation (descending by derived timestamp,
line 164) is the exact reverse of the chart presentation (the ascending
sorted frame of line 107) over the same rows, for every fetch result. -/
theorem C5_table_is_reverse_of_chart (fetch : Except String (List (Option LogRec))) :
    latest_15_df_display (get_data_history fetch) = (get_data_history fetch).reverse := by
  cases fetch with
  | error e => rfl
  | ok logs =>
    by_cases h : logs.isEmpty
    · simp [get_data_history, h, latest_15_df_display, sortDesc, sortAsc]
    · simp only [get_data_history, h, if_neg, Bool.false_eq_true, not_false_iff]
      unfold latest_15_df_display sortDesc
      congr 1
      exact (List.sorted_insertionSort rowLE (buildRows logs)).insertionSort_eq
